import Mathlib

/-!
# Run lifecycle tracker: shallow embedding and verification

A shallow embedding of the run-lifecycle code of the repository:

* `packages/backend/src/flow-run/flow-run-service.ts` — the backend
  service (`list`, `finish`, `start`, `getOne`) over a relational store,
  modelled as explicit state passing over a list of `FlowRun` records;
* `packages/ui/feature-builder-canvas/src/lib/test-flow-widget/`
  `test-flow-widget.component.ts` — the run status poller
  (`setStatusChecker`), whose RxJS pipeline
  `interval → takeUntil → switchMap(get) → switchMap(logs) → tap → takeWhile`
  is modelled as a deterministic tick-by-tick event trace.

Asynchronous time (`new Date()`) is passed explicitly as a `Nat`; the id
generator `apId` and the outcome of the awaited side-effect dispatch are
fields of an explicit environment.
-/

namespace Activepieces

/-- Modelled from the spec (the `ExecutionOutputStatus` enum lives in the
`shared` package, outside the given files): `RUNNING` (initial) and `PAUSED`
are the only non-terminal statuses; the terminal set contains at least
succeeded / failed / stopped / internal-error values. -/
inductive ExecutionOutputStatus where
  | RUNNING
  | PAUSED
  | SUCCEEDED
  | FAILED
  | STOPPED
  | INTERNAL_ERROR
deriving DecidableEq, Repr

/-- A flow-version record, with the fields `flowRunService.start` reads. -/
structure FlowVersion where
  id : String
  flowId : String
  displayName : String
deriving DecidableEq, Repr

/-- A collection-version record, with the fields `flowRunService.start` reads. -/
structure CollectionVersion where
  id : String
  collectionId : String
  displayName : String
deriving DecidableEq, Repr

/-- A collection record, with the fields `flowRunService.start` reads. -/
structure Collection where
  id : String
  projectId : String
deriving DecidableEq, Repr

/-- A `FlowRun` row, after the fields populated by `flowRunService.start`
and by the store.  `created` is the store-assigned creation timestamp used
as the pagination key (`paginationKeys: ["created"]`). -/
structure FlowRun where
  id : String
  instanceId : Option String
  projectId : String
  collectionId : String
  flowId : String
  flowVersionId : String
  collectionVersionId : String
  flowDisplayName : String
  collectionDisplayName : String
  status : ExecutionOutputStatus
  startTime : Option Nat
  finishTime : Option Nat
  logsFileId : Option String
  created : Nat
deriving DecidableEq, Repr

/-- The error codes raised by `flowRunService.start` through
`ActivepiecesError`. -/
inductive ErrorCode where
  | FLOW_VERSION_NOT_FOUND
  | COLLECTION_VERSION_NOT_FOUND
  | COLLECTION_NOT_FOUND
deriving DecidableEq, Repr

/-- `new ActivepiecesError({ code, params: { id } })`: a typed not-found
condition carrying the offending id. -/
structure ActivepiecesError where
  code : ErrorCode
  paramId : String
deriving DecidableEq, Repr

/-- The environment of external collaborators of the service: the three
lookup tables, the id generator `apId()`, the wall clock `new Date()`, and
whether the awaited `flowRunSideEffects.start` dispatch resolves or
rejects. -/
structure Env where
  flowVersions : List FlowVersion
  collectionVersions : List CollectionVersion
  collections : List Collection
  genId : String
  now : Nat
  sideEffectOk : Bool
deriving Repr

/-- Lookup `flowVersionService.getOne(id)`. -/
def flowVersionGetOne (env : Env) (id : String) : Option FlowVersion :=
  env.flowVersions.find? (fun fv => fv.id == id)

/-- Lookup `collectionVersionService.getOne(id)`. -/
def collectionVersionGetOne (env : Env) (id : String) : Option CollectionVersion :=
  env.collectionVersions.find? (fun cv => cv.id == id)

/-- Lookup `collectionService.getOne(id, null)`. -/
def collectionGetOne (env : Env) (id : String) : Option Collection :=
  env.collections.find? (fun c => c.id == id)

/-- Helper `getFlowVersionOrThrow` of `flow-run-service.ts`. -/
def getFlowVersionOrThrow (env : Env) (id : String) :
    Except ActivepiecesError FlowVersion :=
  match flowVersionGetOne env id with
  | none => .error ⟨.FLOW_VERSION_NOT_FOUND, id⟩
  | some flowVersion => .ok flowVersion

/-- Helper `getCollectionVersionOrThrow` of `flow-run-service.ts`. -/
def getCollectionVersionOrThrow (env : Env) (id : String) :
    Except ActivepiecesError CollectionVersion :=
  match collectionVersionGetOne env id with
  | none => .error ⟨.COLLECTION_VERSION_NOT_FOUND, id⟩
  | some collectionVersion => .ok collectionVersion

/-- Helper `getCollectionOrThrow` of `flow-run-service.ts`. -/
def getCollectionOrThrow (env : Env) (id : String) :
    Except ActivepiecesError Collection :=
  match collectionGetOne env id with
  | none => .error ⟨.COLLECTION_NOT_FOUND, id⟩
  | some collection => .ok collection

/-- Observable side effects of one `start` call, in order of occurrence:
the durable `repo.save` write, then the `flowRunSideEffects.start` dispatch
(which carries the saved run and the original payload). -/
inductive StartEvent where
  | persist (run : FlowRun)
  | dispatchBegin (run : FlowRun) (payload : String)
deriving DecidableEq, Repr

/-- How a `start` call can reject: a typed `ActivepiecesError` from one of
the three lookups, or the rejection of the awaited
`flowRunSideEffects.start` promise. -/
inductive StartError where
  | apError (e : ActivepiecesError)
  | sideEffectFailed
deriving DecidableEq, Repr

/-- Result of a `start` call: the settled promise, the store afterwards,
and the trace of side effects in order. -/
structure StartResult where
  result : Except StartError FlowRun
  store : List FlowRun
  events : List StartEvent
deriving Repr

/-- The `Partial<FlowRun>` literal that `flowRunService.start` builds and
saves once the three lookups have resolved: fresh id from `apId()`, status
`RUNNING`, `startTime = new Date()`, reference and denormalized fields
copied from the resolved records, no finish time and no logs file yet. -/
def savedRun (env : Env) (instanceId : Option String) (flowVersion : FlowVersion)
    (collectionVersion : CollectionVersion) (collection : Collection) : FlowRun :=
  { id := env.genId
    instanceId := instanceId
    projectId := collection.projectId
    collectionId := collectionVersion.collectionId
    flowId := flowVersion.flowId
    flowVersionId := flowVersion.id
    collectionVersionId := collectionVersion.id
    flowDisplayName := flowVersion.displayName
    collectionDisplayName := collectionVersion.displayName
    status := .RUNNING
    startTime := some env.now
    finishTime := none
    logsFileId := none
    created := env.now }

/-- Operation `flowRunService.start({instanceId, flowVersionId, collectionVersionId,
payload})`: three sequential lookups (each fails fast with its typed
error), then construction and `repo.save` of the RUNNING run, then the
awaited side-effect dispatch, then return of the saved run. -/
def start (env : Env) (store : List FlowRun) (instanceId : Option String)
    (flowVersionId collectionVersionId : String) (payload : String) : StartResult :=
  match getFlowVersionOrThrow env flowVersionId with
  | .error e => ⟨.error (.apError e), store, []⟩
  | .ok flowVersion =>
    match getCollectionVersionOrThrow env collectionVersionId with
    | .error e => ⟨.error (.apError e), store, []⟩
    | .ok collectionVersion =>
      match getCollectionOrThrow env collectionVersion.collectionId with
      | .error e => ⟨.error (.apError e), store, []⟩
      | .ok collection =>
        let savedFlowRun := savedRun env instanceId flowVersion collectionVersion collection
        let events := [.persist savedFlowRun, .dispatchBegin savedFlowRun payload]
        if env.sideEffectOk then
          ⟨.ok savedFlowRun, store ++ [savedFlowRun], events⟩
        else
          ⟨.error .sideEffectFailed, store ++ [savedFlowRun], events⟩

/-- Operation `flowRunService.getOne({id})`: `repo.findOneBy({id})`. -/
def getOne (store : List FlowRun) (id : String) : Option FlowRun :=
  store.find? (fun r => r.id == id)

/-- The patch `{logsFileId, status, finishTime: new Date().toISOString()}`
that `repo.update` applies to a matching row. -/
def finishPatch (status : ExecutionOutputStatus) (logsFileId : String) (now : Nat)
    (r : FlowRun) : FlowRun :=
  { r with logsFileId := some logsFileId, status := status, finishTime := some now }

/-- Operation `flowRunService.finish(flowRunId, status, logsFileId)`:
`repo.update(flowRunId, {logsFileId, status, finishTime: now})` followed by
`getOne({id: flowRunId})`.  The update patches every row whose primary key
matches (at most one) and is a no-op when none does. -/
def finish (store : List FlowRun) (flowRunId : String)
    (status : ExecutionOutputStatus) (logsFileId : String) (now : Nat) :
    Option FlowRun × List FlowRun :=
  let updated := store.map (fun r =>
    if r.id == flowRunId then finishPatch status logsFileId now r else r)
  (getOne updated flowRunId, updated)

/-- Ordered insertion for the descending `created` order used by
`buildPaginator({ paginationKeys: ["created"], order: Order.DESC })`. -/
def insertByCreatedDesc (r : FlowRun) : List FlowRun → List FlowRun
  | [] => [r]
  | x :: xs =>
    if x.created ≤ r.created then r :: x :: xs else x :: insertByCreatedDesc r xs

/-- Sort by `created` descending (insertion sort; the backing store's
`ORDER BY created DESC`). -/
def sortByCreatedDesc : List FlowRun → List FlowRun
  | [] => []
  | x :: xs => insertByCreatedDesc x (sortByCreatedDesc xs)

/-- The full result set of the `list` query, before pagination: rows of the
project with a non-null `instanceId`, ordered by `created` descending. -/
def listQueryRows (store : List FlowRun) (projectId : String) : List FlowRun :=
  sortByCreatedDesc (store.filter (fun r => r.projectId == projectId && r.instanceId.isSome))

/-- The `SeekPage` returned by `flowRunService.list`: the page data and the
cursor pair for the next / previous page. -/
structure SeekPage where
  data : List FlowRun
  next : Option Nat
  previous : Option Nat
deriving Repr

/-- Operation `flowRunService.list({projectId, cursor, limit})`.

Modelled from the spec: `paginationHelper` and `buildPaginator` are not
among the given files; per the spec a cursor is an opaque token encoding a
position in the stable sort order (by creation time, descending), decoding
tolerates an absent cursor (first page), and the paginator returns at most
`limit` rows together with a next/previous cursor pair.  The cursor is
modelled as the position (number of rows of the ordered result set that
precede the page). The query itself (`where projectId`,
`andWhere instanceId is not null`, order by `created` descending) is from
`flow-run-service.ts`. -/
def list (store : List FlowRun) (projectId : String) (cursor : Option Nat)
    (limit : Nat) : SeekPage :=
  let rows := listQueryRows store projectId
  let afterPosition := cursor.getD 0
  { data := (rows.drop afterPosition).take limit
    next :=
      if afterPosition + limit < rows.length then some (afterPosition + limit) else none
    previous :=
      if afterPosition = 0 then none else some (afterPosition - limit) }

/-! ## The run status poller (`TestFlowWidgetComponent.setStatusChecker`) -/

/-- Observable effects of the polling pipeline, in order: a fetch of the
run (`this.instanceRunService.get(runId)`), a fetch of the log contents
(`this.flowService.loadStateLogs(logsFileId)`), and a dispatch of the
shared-state update (`this.store.dispatch(canvasActions.setRun(...))`)
carrying the run and the merged log state, if any. -/
inductive PollerEvent where
  | pollFetch (run : FlowRun)
  | logsFetch (fileId : String)
  | setRunDispatch (run : FlowRun) (state : Option String)
deriving DecidableEq, Repr

/-- The `takeWhile` predicate of the pipeline: polling continues while the
fetched status is `RUNNING` or `PAUSED`. -/
def keepPolling (run : FlowRun) : Bool :=
  run.status == .RUNNING || run.status == .PAUSED

/-- The second `switchMap`: when the fetched run's status is not `RUNNING`
and its `logsFileId` is non-null, fetch the log contents and merge them
into the emitted value (`{ ...instanceRun, state }`); otherwise pass the
run through unchanged.  Returns the effects and the merged state. -/
def mergeLogs (logsOf : String → String) (run : FlowRun) :
    List PollerEvent × Option String :=
  match run.logsFileId with
  | some fileId =>
    if run.status == .RUNNING then ([], none)
    else ([.logsFetch fileId], some (logsOf fileId))
  | none => ([], none)

/-- State of the polling subscription: the accumulated effect trace and
whether the subscription has completed (by `takeWhile` or `takeUntil`). -/
structure PollerState where
  events : List PollerEvent
  stopped : Bool
deriving Repr

/-- One `interval` tick that reaches the `switchMap`s: fetch the run, merge
logs when due, `tap`-dispatch `setRun` when the status is not `RUNNING`,
and complete the subscription when the status is neither `RUNNING` nor
`PAUSED`. -/
def pollerTick (logsOf : String → String) (run : FlowRun) (s : PollerState) :
    PollerState :=
  if s.stopped then s
  else
    let (logEvents, merged) := mergeLogs logsOf run
    let dispatchEvents : List PollerEvent :=
      if run.status == .RUNNING then [] else [.setRunDispatch run merged]
    { events := s.events ++ [.pollFetch run] ++ logEvents ++ dispatchEvents
      stopped := !keepPolling run }

/-- Whether the external cancellation signal
(`takeUntil(this.testRunSnackbar.instance.exitButtonClicked)`) has fired
at or before tick `n`; `cancelAt = some c` means the user exited right
before tick `c` would run. -/
def cancelled (cancelAt : Option Nat) (n : Nat) : Bool :=
  match cancelAt with
  | some c => c ≤ n
  | none => false

/-- The polling subscription after `n` interval ticks.  `fetch k` is the
run snapshot `instanceRunService.get(runId)` returns at tick `k`.  A tick
at which the cancellation signal has fired completes the subscription
before any fetch (`takeUntil` sits directly on the `interval`). -/
def runPoller (logsOf : String → String) (fetch : Nat → FlowRun)
    (cancelAt : Option Nat) : Nat → PollerState
  | 0 => ⟨[], false⟩
  | n + 1 =>
    let s := runPoller logsOf fetch cancelAt n
    if cancelled cancelAt n then { s with stopped := true }
    else pollerTick logsOf (fetch n) s

/-- Recognizer for run-fetch effects. -/
def isPollFetch : PollerEvent → Bool
  | .pollFetch _ => true
  | _ => false

/-- Recognizer for log-fetch effects. -/
def isLogsFetch : PollerEvent → Bool
  | .logsFetch _ => true
  | _ => false

/-- Recognizer for shared-state update dispatches. -/
def isSetRunDispatch : PollerEvent → Bool
  | .setRunDispatch _ _ => true
  | _ => false

/-- The polls issued during the first `n` ticks: the run fetches in the
effect trace. -/
def pollsIssued (logsOf : String → String) (fetch : Nat → FlowRun)
    (cancelAt : Option Nat) (n : Nat) : List PollerEvent :=
  (runPoller logsOf fetch cancelAt n).events.filter isPollFetch

/-- The log fetches issued during the first `n` ticks. -/
def logsFetchesIssued (logsOf : String → String) (fetch : Nat → FlowRun)
    (cancelAt : Option Nat) (n : Nat) : List PollerEvent :=
  (runPoller logsOf fetch cancelAt n).events.filter isLogsFetch

/-! ## Concrete fixtures used by witnesses and counterexamples -/

/-- An environment in which `fv1 → f1`, `cv1 → c1`, `c1 → p1` all resolve
and the side-effect dispatch resolves. -/
def envHappy : Env :=
  { flowVersions := [⟨"fv1", "f1", "My Flow"⟩]
    collectionVersions := [⟨"cv1", "c1", "My Collection"⟩]
    collections := [⟨"c1", "p1"⟩]
    genId := "run-1"
    now := 7
    sideEffectOk := true }

/-- Like `envHappy` but the flow-version lookup fails. -/
def envNoFlowVersion : Env := { envHappy with flowVersions := [] }

/-- Like `envHappy` but the collection-version lookup fails. -/
def envNoCollectionVersion : Env := { envHappy with collectionVersions := [] }

/-- Like `envHappy` but the collection lookup fails. -/
def envNoCollection : Env := { envHappy with collections := [] }

/-- Like `envHappy` but the awaited side-effect dispatch rejects. -/
def envDispatchFail : Env := { envHappy with sideEffectOk := false }

/-- A RUNNING run of project `p1` attached to an instance. -/
def runA : FlowRun :=
  ⟨"run-A", some "inst-1", "p1", "c1", "f1", "fv1", "cv1", "Flow A", "Col",
    .RUNNING, some 3, none, none, 3⟩

/-- A finished (SUCCEEDED) run of project `p1` attached to an instance. -/
def runB : FlowRun :=
  ⟨"run-B", some "inst-1", "p1", "c1", "f1", "fv1", "cv1", "Flow B", "Col",
    .SUCCEEDED, some 5, some 9, some "L0", 5⟩

/-- A run of project `p1` with a null instance id. -/
def runC : FlowRun :=
  ⟨"run-C", none, "p1", "c1", "f1", "fv1", "cv1", "Flow C", "Col",
    .RUNNING, some 10, none, none, 10⟩

/-- A run of another project `p2`. -/
def runD : FlowRun :=
  ⟨"run-D", some "inst-2", "p2", "c2", "f2", "fv2", "cv2", "Flow D", "Col2",
    .RUNNING, some 8, none, none, 8⟩

/-- A concrete store holding the four runs above. -/
def storeW : List FlowRun := [runA, runB, runC, runD]

/-- A RUNNING snapshot of the polled run, without logs. -/
def pollRunning : FlowRun :=
  ⟨"run-P", none, "p1", "c1", "f1", "fv1", "cv1", "Flow P", "Col",
    .RUNNING, some 0, none, none, 0⟩

/-- A PAUSED snapshot of the polled run, without logs. -/
def pollPaused : FlowRun := { pollRunning with status := .PAUSED }

/-- A SUCCEEDED snapshot of the polled run carrying `logsFileId = "L1"`. -/
def pollSucceeded : FlowRun :=
  { pollRunning with status := .SUCCEEDED, finishTime := some 5, logsFileId := some "L1" }

/-- The fetch sequence of the end-to-end scenario:
RUNNING → RUNNING → SUCCEEDED with `logsFileId = "L1"` from the third poll on. -/
def scenarioFetch : Nat → FlowRun := fun k => if k < 2 then pollRunning else pollSucceeded

/-- A concrete log-contents collaborator for the scenario. -/
def scenarioLogsOf : String → String := fun fileId => String.append "state-of-" fileId

/-! ## Claims about `flowRunService.start` -/

/-- Claim C1: whenever one of the three lookups of `start` fails to
resolve, `start` performs zero persistence (the store is unchanged and no
side effect occurs) and rejects with the typed not-found condition of the
failing step, carrying the offending id; no mutation happens before all
three lookups succeed. -/
theorem start_lookup_failure_no_mutation (env : Env) (store : List FlowRun)
    (instanceId : Option String) (flowVersionId collectionVersionId payload : String) :
    (flowVersionGetOne env flowVersionId = none →
      start env store instanceId flowVersionId collectionVersionId payload
        = ⟨.error (.apError ⟨.FLOW_VERSION_NOT_FOUND, flowVersionId⟩), store, []⟩)
    ∧ (∀ fv, flowVersionGetOne env flowVersionId = some fv →
        collectionVersionGetOne env collectionVersionId = none →
      start env store instanceId flowVersionId collectionVersionId payload
        = ⟨.error (.apError ⟨.COLLECTION_VERSION_NOT_FOUND, collectionVersionId⟩), store, []⟩)
    ∧ (∀ fv cv, flowVersionGetOne env flowVersionId = some fv →
        collectionVersionGetOne env collectionVersionId = some cv →
        collectionGetOne env cv.collectionId = none →
      start env store instanceId flowVersionId collectionVersionId payload
        = ⟨.error (.apError ⟨.COLLECTION_NOT_FOUND, cv.collectionId⟩), store, []⟩) := by
  refine ⟨fun h1 => ?_, fun fv h1 h2 => ?_, fun fv cv h1 h2 h3 => ?_⟩
  · simp [start, getFlowVersionOrThrow, h1]
  · simp [start, getFlowVersionOrThrow, getCollectionVersionOrThrow, h1, h2]
  · simp [start, getFlowVersionOrThrow, getCollectionVersionOrThrow,
      getCollectionOrThrow, h1, h2, h3]

/-- Witness for C1: each of the three lookup failures hit on concrete
environments. -/
theorem start_lookup_failure_no_mutation_witness :
    start envNoFlowVersion [] none "fv1" "cv1" "payload-1"
        = ⟨.error (.apError ⟨.FLOW_VERSION_NOT_FOUND, "fv1"⟩), [], []⟩
      ∧ start envNoCollectionVersion [] none "fv1" "cv1" "payload-1"
        = ⟨.error (.apError ⟨.COLLECTION_VERSION_NOT_FOUND, "cv1"⟩), [], []⟩
      ∧ start envNoCollection [] none "fv1" "cv1" "payload-1"
        = ⟨.error (.apError ⟨.COLLECTION_NOT_FOUND, "c1"⟩), [], []⟩ :=
  ⟨(start_lookup_failure_no_mutation envNoFlowVersion [] none "fv1" "cv1" "payload-1").1
      (by rfl),
    (start_lookup_failure_no_mutation envNoCollectionVersion [] none "fv1" "cv1"
        "payload-1").2.1 ⟨"fv1", "f1", "My Flow"⟩ (by rfl) (by rfl),
    (start_lookup_failure_no_mutation envNoCollection [] none "fv1" "cv1"
        "payload-1").2.2 ⟨"fv1", "f1", "My Flow"⟩ ⟨"cv1", "c1", "My Collection"⟩
      (by rfl) (by rfl) (by rfl)⟩

/-- Counterexample to C2 as stated: with all three lookups resolving but
the awaited `flowRunSideEffects.start` promise rejecting, the Run is
persisted with status RUNNING, yet `start` does not return the persisted
Run to the caller — the rejection propagates (`await` without a catch). -/
theorem start_dispatch_failure_cex :
    ((start envDispatchFail [] none "fv1" "cv1" "payload-1").store.map FlowRun.status
        = [.RUNNING])
      ∧ (start envDispatchFail [] none "fv1" "cv1" "payload-1").result
          = .error .sideEffectFailed := by
  exact ⟨rfl, rfl⟩

/-- Claim C2 (amended): when all three lookups resolve, the Run is
persisted with status RUNNING strictly before the begin-execution side
effect is dispatched, and the Run record is unaffected by the dispatch
outcome; if the dispatch resolves, `start` returns the persisted Run, and
if it rejects, the rejection propagates to the caller (no Run is returned)
while the persisted RUNNING Run remains in the store. -/
theorem start_persist_before_dispatch (env : Env) (store : List FlowRun)
    (instanceId : Option String) (flowVersionId collectionVersionId payload : String)
    (fv : FlowVersion) (cv : CollectionVersion) (c : Collection)
    (hfv : flowVersionGetOne env flowVersionId = some fv)
    (hcv : collectionVersionGetOne env collectionVersionId = some cv)
    (hc : collectionGetOne env cv.collectionId = some c) :
    (start env store instanceId flowVersionId collectionVersionId payload).events
        = [.persist (savedRun env instanceId fv cv c),
           .dispatchBegin (savedRun env instanceId fv cv c) payload]
      ∧ (savedRun env instanceId fv cv c).status = .RUNNING
      ∧ (start env store instanceId flowVersionId collectionVersionId payload).store
          = store ++ [savedRun env instanceId fv cv c]
      ∧ (env.sideEffectOk = true →
          (start env store instanceId flowVersionId collectionVersionId payload).result
            = .ok (savedRun env instanceId fv cv c))
      ∧ (env.sideEffectOk = false →
          (start env store instanceId flowVersionId collectionVersionId payload).result
            = .error .sideEffectFailed) := by
  cases hok : env.sideEffectOk <;>
    simp [start, getFlowVersionOrThrow, getCollectionVersionOrThrow,
      getCollectionOrThrow, hfv, hcv, hc, hok, savedRun]

/-- Witness for C2 (amended): the happy-path environment, where the
dispatch succeeds and the persisted Run is returned. -/
theorem start_persist_before_dispatch_witness :
    (start envHappy [] none "fv1" "cv1" "payload-1").events
        = [.persist (savedRun envHappy none ⟨"fv1", "f1", "My Flow"⟩
              ⟨"cv1", "c1", "My Collection"⟩ ⟨"c1", "p1"⟩),
           .dispatchBegin (savedRun envHappy none ⟨"fv1", "f1", "My Flow"⟩
              ⟨"cv1", "c1", "My Collection"⟩ ⟨"c1", "p1"⟩) "payload-1"]
      ∧ (start envHappy [] none "fv1" "cv1" "payload-1").result
          = .ok (savedRun envHappy none ⟨"fv1", "f1", "My Flow"⟩
              ⟨"cv1", "c1", "My Collection"⟩ ⟨"c1", "p1"⟩) := by
  obtain ⟨h1, _, _, h4, _⟩ := start_persist_before_dispatch envHappy [] none "fv1" "cv1"
    "payload-1" ⟨"fv1", "f1", "My Flow"⟩ ⟨"cv1", "c1", "My Collection"⟩ ⟨"c1", "p1"⟩
    (by rfl) (by rfl) (by rfl)
  exact ⟨h1, h4 rfl⟩

/-- Claim C3: when all three lookups resolve (and the dispatch resolves, so
that a value is returned), the returned Run has status RUNNING, a non-null
start timestamp, no finish timestamp, no logs file reference, the freshly
generated id, and its reference/denormalized fields copied from the
resolved records. -/
theorem start_success_run_fields (env : Env) (store : List FlowRun)
    (instanceId : Option String) (flowVersionId collectionVersionId payload : String)
    (fv : FlowVersion) (cv : CollectionVersion) (c : Collection)
    (hfv : flowVersionGetOne env flowVersionId = some fv)
    (hcv : collectionVersionGetOne env collectionVersionId = some cv)
    (hc : collectionGetOne env cv.collectionId = some c)
    (hok : env.sideEffectOk = true)
    (hfresh : ∀ r ∈ store, r.id ≠ env.genId) :
    (start env store instanceId flowVersionId collectionVersionId payload).result
        = .ok (savedRun env instanceId fv cv c)
      ∧ (savedRun env instanceId fv cv c).status = .RUNNING
      ∧ (savedRun env instanceId fv cv c).startTime = some env.now
      ∧ (savedRun env instanceId fv cv c).finishTime = none
      ∧ (savedRun env instanceId fv cv c).logsFileId = none
      ∧ (savedRun env instanceId fv cv c).id = env.genId
      ∧ (∀ r ∈ store, r.id ≠ (savedRun env instanceId fv cv c).id)
      ∧ (savedRun env instanceId fv cv c).projectId = c.projectId
      ∧ (savedRun env instanceId fv cv c).collectionId = cv.collectionId
      ∧ (savedRun env instanceId fv cv c).flowId = fv.flowId
      ∧ (savedRun env instanceId fv cv c).flowVersionId = fv.id
      ∧ (savedRun env instanceId fv cv c).collectionVersionId = cv.id
      ∧ (savedRun env instanceId fv cv c).flowDisplayName = fv.displayName
      ∧ (savedRun env instanceId fv cv c).collectionDisplayName = cv.displayName := by
  refine ⟨?_, rfl, rfl, rfl, rfl, rfl, hfresh, rfl, rfl, rfl, rfl, rfl, rfl, rfl⟩
  simp [start, getFlowVersionOrThrow, getCollectionVersionOrThrow,
    getCollectionOrThrow, hfv, hcv, hc, hok]

/-- Witness for C3: the happy-path environment with an empty store. -/
theorem start_success_run_fields_witness :
    (start envHappy [] none "fv1" "cv1" "payload-1").result
        = .ok (savedRun envHappy none ⟨"fv1", "f1", "My Flow"⟩
            ⟨"cv1", "c1", "My Collection"⟩ ⟨"c1", "p1"⟩)
      ∧ (savedRun envHappy none ⟨"fv1", "f1", "My Flow"⟩
            ⟨"cv1", "c1", "My Collection"⟩ ⟨"c1", "p1"⟩).projectId = "p1"
      ∧ (savedRun envHappy none ⟨"fv1", "f1", "My Flow"⟩
            ⟨"cv1", "c1", "My Collection"⟩ ⟨"c1", "p1"⟩).status = .RUNNING := by
  obtain ⟨h1, h2, _⟩ := start_success_run_fields envHappy [] none "fv1" "cv1" "payload-1"
    ⟨"fv1", "f1", "My Flow"⟩ ⟨"cv1", "c1", "My Collection"⟩ ⟨"c1", "p1"⟩
    (by rfl) (by rfl) (by rfl) (by rfl) (by simp)
  exact ⟨h1, rfl, h2⟩

/-! ## Claims about `flowRunService.finish` -/

/-- Key preservation: the `repo.update` patch does not change the primary
key of a row. -/
lemma finishPatch_id (status : ExecutionOutputStatus) (logsFileId : String)
    (now : Nat) (r : FlowRun) : (finishPatch status logsFileId now r).id = r.id := rfl

/-- Composition: applying the `repo.update` patch twice is the same as
applying the later patch once. -/
lemma finishPatch_comp (st1 st2 : ExecutionOutputStatus) (lf1 lf2 : String)
    (t1 t2 : Nat) (r : FlowRun) :
    finishPatch st2 lf2 t2 (finishPatch st1 lf1 t1 r) = finishPatch st2 lf2 t2 r := rfl

/-- Point lookup after `repo.update`: the updated store's row for the
updated id is the patched row found before the update. -/
lemma getOne_map_patch (store : List FlowRun) (flowRunId : String)
    (status : ExecutionOutputStatus) (logsFileId : String) (now : Nat) :
    getOne (store.map (fun r =>
        if r.id == flowRunId then finishPatch status logsFileId now r else r)) flowRunId
      = (getOne store flowRunId).map (fun r =>
          if r.id == flowRunId then finishPatch status logsFileId now r else r) := by
  unfold getOne
  rw [List.find?_map]
  have hcomp : ((fun r : FlowRun => r.id == flowRunId) ∘ (fun r =>
      if r.id == flowRunId then finishPatch status logsFileId now r else r))
      = (fun r : FlowRun => r.id == flowRunId) := by
    funext r
    by_cases h : r.id == flowRunId <;> simp [Function.comp, h, finishPatch_id]
  rw [hcomp]

/-- When no row matches, `repo.update` leaves the store unchanged. -/
lemma finish_store_of_none (store : List FlowRun) (flowRunId : String)
    (status : ExecutionOutputStatus) (logsFileId : String) (now : Nat)
    (h : getOne store flowRunId = none) :
    (finish store flowRunId status logsFileId now).2 = store := by
  have hall := List.find?_eq_none.mp h
  show store.map _ = store
  rw [List.map_congr_left (g := id) ?_, List.map_id]
  intro r hr
  simp only [id]
  rw [if_neg]
  exact fun hb => hall r hr hb

/-- When a row matches, `finish` returns the patched row. -/
lemma finish_fst_of_some (store : List FlowRun) (flowRunId : String)
    (status : ExecutionOutputStatus) (logsFileId : String) (now : Nat)
    (r : FlowRun) (h : getOne store flowRunId = some r) :
    (finish store flowRunId status logsFileId now).1
      = some (finishPatch status logsFileId now r) := by
  show getOne (store.map _) flowRunId = _
  rw [getOne_map_patch, h]
  have h' : store.find? (fun x => x.id == flowRunId) = some r := h
  have hid : (r.id == flowRunId) = true :=
    @List.find?_some FlowRun (fun x => x.id == flowRunId) r store h'
  have hid' : r.id = flowRunId := by simpa using hid
  simp [hid']

/-- Claim C8: `finish` on an existing run id sets status and the logs file
reference exactly as given, sets the finish timestamp to the current time
(a value at least the run's start time whenever the clock has not moved
backwards since the run started), and returns the updated run; `finish` on
a non-existent id returns the explicit not-found result `none` without
throwing, and performs no write to the store. -/
theorem finish_update_or_not_found (store : List FlowRun) (flowRunId : String)
    (status : ExecutionOutputStatus) (logsFileId : String) (now : Nat) :
    (∀ r, getOne store flowRunId = some r →
      (finish store flowRunId status logsFileId now).1
          = some (finishPatch status logsFileId now r)
        ∧ (finishPatch status logsFileId now r).status = status
        ∧ (finishPatch status logsFileId now r).logsFileId = some logsFileId
        ∧ (finishPatch status logsFileId now r).finishTime = some now
        ∧ (∀ t0, r.startTime = some t0 → t0 ≤ now →
            ∀ tf, (finishPatch status logsFileId now r).finishTime = some tf → t0 ≤ tf))
    ∧ (getOne store flowRunId = none →
        (finish store flowRunId status logsFileId now).1 = none
          ∧ (finish store flowRunId status logsFileId now).2 = store) := by
  constructor
  · intro r h
    refine ⟨finish_fst_of_some store flowRunId status logsFileId now r h, rfl, rfl, rfl, ?_⟩
    intro t0 _ hle tf htf
    have heq : now = tf := by
      simpa [finishPatch] using htf
    omega
  · intro h
    have hstore := finish_store_of_none store flowRunId status logsFileId now h
    constructor
    · show getOne (finish store flowRunId status logsFileId now).2 flowRunId = none
      rw [hstore, h]
    · exact hstore

/-- Witness for C8: an existing id (`run-A`) and a missing id (`run-X`) in
the concrete store. -/
theorem finish_update_or_not_found_witness :
    (finish storeW "run-A" .SUCCEEDED "L9" 20).1
        = some (finishPatch .SUCCEEDED "L9" 20 runA)
      ∧ (3 : Nat) ≤ 20
      ∧ (finish storeW "run-X" .SUCCEEDED "L9" 20).1 = none
      ∧ (finish storeW "run-X" .SUCCEEDED "L9" 20).2 = storeW := by
  obtain ⟨hfound, hnone⟩ := finish_update_or_not_found storeW "run-A" .SUCCEEDED "L9" 20
  obtain ⟨h1, _, _, _, h5⟩ := hfound runA (by rfl)
  obtain ⟨h6, h7⟩ := (finish_update_or_not_found storeW "run-X" .SUCCEEDED "L9" 20).2
    (by rfl)
  exact ⟨h1, h5 3 rfl (by decide) 20 rfl, h6, h7⟩

/-- Claim C9: `finish` is idempotent in effect — a second call with
identical arguments (possibly at a later wall-clock time `t2`) leaves the
service in exactly the state a single call at `t2` produces, so repeating
the call does not corrupt the run's state. -/
theorem finish_idempotent (store : List FlowRun) (flowRunId : String)
    (status : ExecutionOutputStatus) (logsFileId : String) (t1 t2 : Nat) :
    finish (finish store flowRunId status logsFileId t1).2 flowRunId status logsFileId t2
      = finish store flowRunId status logsFileId t2 := by
  have hmap : ((finish store flowRunId status logsFileId t1).2).map
      (fun r => if r.id == flowRunId then finishPatch status logsFileId t2 r else r)
    = store.map
      (fun r => if r.id == flowRunId then finishPatch status logsFileId t2 r else r) := by
    show (store.map _).map _ = store.map _
    rw [List.map_map]
    refine List.map_congr_left (fun r _ => ?_)
    by_cases h : r.id == flowRunId
    · simp [Function.comp, h, finishPatch_id, finishPatch_comp]
    · simp [Function.comp, h]
  show (getOne _ flowRunId, _) = (getOne _ flowRunId, _)
  rw [hmap]

/-- Claim C10: the update of `finish` is unconditional — it checks neither
the run's current status nor whether the supplied status is terminal, so a
`finish` on an already-finished run, or with a non-terminal status, always
overwrites status and the logs file reference and replaces the finish
timestamp with the fresh current time (last write wins): a second `finish`
with different arguments yields exactly the second patch applied to the
original run, for every prior state of the run. -/
theorem finish_last_write_wins (store : List FlowRun) (flowRunId : String)
    (prior : FlowRun) (st1 st2 : ExecutionOutputStatus) (lf1 lf2 : String) (t1 t2 : Nat)
    (h : getOne store flowRunId = some prior) :
    (finish store flowRunId st2 lf2 t2).1 = some (finishPatch st2 lf2 t2 prior)
      ∧ (finish (finish store flowRunId st1 lf1 t1).2 flowRunId st2 lf2 t2).1
          = some (finishPatch st2 lf2 t2 prior) := by
  refine ⟨finish_fst_of_some store flowRunId st2 lf2 t2 prior h, ?_⟩
  have hmid : getOne (finish store flowRunId st1 lf1 t1).2 flowRunId
      = some (finishPatch st1 lf1 t1 prior) :=
    finish_fst_of_some store flowRunId st1 lf1 t1 prior h
  rw [finish_fst_of_some _ flowRunId st2 lf2 t2 _ hmid, finishPatch_comp]

/-- Witness for C10: `run-B` is already finished with a terminal status,
and a later `finish` with the non-terminal status RUNNING still overwrites
everything. -/
theorem finish_last_write_wins_witness :
    (finish storeW "run-B" .RUNNING "L2" 40).1 = some (finishPatch .RUNNING "L2" 40 runB)
      ∧ (finish (finish storeW "run-B" .FAILED "L1" 30).2 "run-B" .RUNNING "L2" 40).1
          = some (finishPatch .RUNNING "L2" 40 runB) :=
  finish_last_write_wins storeW "run-B" runB .FAILED .RUNNING "L1" "L2" 30 40 (by rfl)

/-! ## Claims about `flowRunService.list` -/

/-- Membership through ordered insertion. -/
lemma mem_insertByCreatedDesc {a r : FlowRun} {l : List FlowRun} :
    a ∈ insertByCreatedDesc r l ↔ a = r ∨ a ∈ l := by
  induction l with
  | nil => simp [insertByCreatedDesc]
  | cons x xs ih =>
    by_cases h : x.created ≤ r.created
    · simp [insertByCreatedDesc, h]
    · simp only [insertByCreatedDesc, if_neg h, List.mem_cons, ih]
      tauto

/-- Ordered insertion preserves the descending `created` order. -/
lemma pairwise_insertByCreatedDesc {r : FlowRun} {l : List FlowRun}
    (h : l.Pairwise (fun a b => b.created ≤ a.created)) :
    (insertByCreatedDesc r l).Pairwise (fun a b => b.created ≤ a.created) := by
  induction l with
  | nil => simp [insertByCreatedDesc]
  | cons x xs ih =>
    rcases List.pairwise_cons.mp h with ⟨hx, hxs⟩
    by_cases hcmp : x.created ≤ r.created
    · rw [insertByCreatedDesc, if_pos hcmp]
      refine List.pairwise_cons.mpr ⟨?_, h⟩
      intro b hb
      rcases List.mem_cons.mp hb with rfl | hb
      · exact hcmp
      · exact le_trans (hx b hb) hcmp
    · rw [insertByCreatedDesc, if_neg hcmp]
      refine List.pairwise_cons.mpr ⟨?_, ih hxs⟩
      intro b hb
      rcases mem_insertByCreatedDesc.mp hb with rfl | hb
      · exact le_of_not_le hcmp
      · exact hx b hb

/-- Membership through the descending sort. -/
lemma mem_sortByCreatedDesc {a : FlowRun} {l : List FlowRun} :
    a ∈ sortByCreatedDesc l ↔ a ∈ l := by
  induction l with
  | nil => simp [sortByCreatedDesc]
  | cons x xs ih =>
    simp only [sortByCreatedDesc, mem_insertByCreatedDesc, ih, List.mem_cons]

/-- The descending sort is sorted by `created`, descending. -/
lemma pairwise_sortByCreatedDesc (l : List FlowRun) :
    (sortByCreatedDesc l).Pairwise (fun a b => b.created ≤ a.created) := by
  induction l with
  | nil => simp [sortByCreatedDesc]
  | cons x xs ih => exact pairwise_insertByCreatedDesc ih

/-- Every row of the full ordered result set belongs to the project, has a
non-null instance id, and comes from the store. -/
lemma mem_listQueryRows {r : FlowRun} {store : List FlowRun} {projectId : String}
    (h : r ∈ listQueryRows store projectId) :
    r.projectId = projectId ∧ r.instanceId ≠ none ∧ r ∈ store := by
  have hf := mem_sortByCreatedDesc.mp h
  rcases List.mem_filter.mp hf with ⟨hmem, hp⟩
  have hp' : r.projectId = projectId ∧ r.instanceId.isSome = true := by simpa using hp
  exact ⟨hp'.1, Option.ne_none_iff_isSome.mpr hp'.2, hmem⟩

/-- Claim C7: every page returned by `list` contains at most `limit` rows;
every returned run belongs to the given project, has a non-null instance
id, and comes from the store; rows are ordered by creation time
descending; and, over a stable dataset, the page and its successor
obtained via the returned next cursor concatenate to a contiguous segment
of the full ordered result set — no duplicated and no skipped items. -/
theorem list_page_properties (store : List FlowRun) (projectId : String)
    (cursor : Option Nat) (limit : Nat) :
    ((list store projectId cursor limit).data.length ≤ limit)
    ∧ (∀ r ∈ (list store projectId cursor limit).data,
        r.projectId = projectId ∧ r.instanceId ≠ none ∧ r ∈ store)
    ∧ (list store projectId cursor limit).data.Pairwise
        (fun a b => b.created ≤ a.created)
    ∧ (∀ nextPos, (list store projectId cursor limit).next = some nextPos →
        (list store projectId cursor limit).data
            ++ (list store projectId (some nextPos) limit).data
          = ((listQueryRows store projectId).drop (cursor.getD 0)).take (limit + limit)) := by
  refine ⟨?_, ?_, ?_, ?_⟩
  · simp only [list]
    exact List.length_take_le limit ((listQueryRows store projectId).drop (cursor.getD 0))
  · intro r hr
    have hsub : (((listQueryRows store projectId).drop (cursor.getD 0)).take limit).Sublist
        (listQueryRows store projectId) :=
      (List.take_sublist _ _).trans (List.drop_sublist _ _)
    exact mem_listQueryRows (hsub.subset (by simpa [list] using hr))
  · have hsub : (((listQueryRows store projectId).drop (cursor.getD 0)).take limit).Sublist
        (listQueryRows store projectId) :=
      (List.take_sublist _ _).trans (List.drop_sublist _ _)
    simpa [list] using List.Pairwise.sublist hsub (pairwise_sortByCreatedDesc _)
  · intro nextPos hnext
    have hpos : nextPos = cursor.getD 0 + limit := by
      by_cases hlt : cursor.getD 0 + limit < (listQueryRows store projectId).length
      · have := hnext
        simp [list, hlt] at this
        omega
      · simp [list, hlt] at hnext
    subst hpos
    simp only [list, Option.getD_some]
    rw [List.take_add, List.drop_drop]

/-- Witness for C7: two adjacent pages of size 1 over the concrete store;
only `run-B` and `run-A` are listed (project `p1`, non-null instance id),
newest first, and the two pages tile the result set. -/
theorem list_page_properties_witness :
    (list storeW "p1" (none : Option Nat) 1).data.length ≤ 1
      ∧ (runB.projectId = "p1" ∧ runB.instanceId ≠ none ∧ runB ∈ storeW)
      ∧ (list storeW "p1" (none : Option Nat) 1).data
            ++ (list storeW "p1" (some 1) 1).data
          = ((listQueryRows storeW "p1").drop 0).take 2 := by
  obtain ⟨h1, h2, _, h4⟩ := list_page_properties storeW "p1" (none : Option Nat) 1
  exact ⟨h1, h2 runB (by decide), h4 1 (by decide)⟩

/-! ## Claims about the run status poller -/

/-- A tick on a completed subscription has no effect. -/
lemma pollerTick_stopped (logsOf : String → String) (r : FlowRun) (s : PollerState)
    (h : s.stopped = true) : pollerTick logsOf r s = s := by
  simp [pollerTick, h]

/-- Unfolding of one `runPoller` step. -/
lemma runPoller_succ (logsOf : String → String) (fetch : Nat → FlowRun)
    (cancelAt : Option Nat) (n : Nat) :
    runPoller logsOf fetch cancelAt (n + 1)
      = if cancelled cancelAt n then
          { runPoller logsOf fetch cancelAt n with stopped := true }
        else pollerTick logsOf (fetch n) (runPoller logsOf fetch cancelAt n) := rfl

/-- Setting `stopped` on an already-completed subscription has no effect. -/
lemma setStopped_self (s : PollerState) (h : s.stopped = true) :
    { s with stopped := true } = s := by
  cases s
  simp only at h
  simp [h]

/-- Effect trace of a live tick: the run fetch, then the optional log
fetch, then the optional `setRun` dispatch. -/
lemma pollerTick_events (logsOf : String → String) (r : FlowRun) (s : PollerState)
    (h : s.stopped = false) :
    (pollerTick logsOf r s).events
      = s.events ++ [.pollFetch r] ++ (mergeLogs logsOf r).1
          ++ (if r.status == .RUNNING then []
              else [.setRunDispatch r (mergeLogs logsOf r).2]) := by
  rcases hml : mergeLogs logsOf r with ⟨logEvents, merged⟩
  simp [pollerTick, h, hml]

/-- A live tick completes the subscription exactly when the fetched status
fails the `takeWhile` predicate. -/
lemma pollerTick_stopped_eq (logsOf : String → String) (r : FlowRun) (s : PollerState)
    (h : s.stopped = false) : (pollerTick logsOf r s).stopped = !keepPolling r := by
  rcases hml : mergeLogs logsOf r with ⟨logEvents, merged⟩
  simp [pollerTick, h, hml]

/-- The log-fetch effects of the merge step contain no run fetch. -/
lemma mergeLogs_filter_isPollFetch (logsOf : String → String) (r : FlowRun) :
    ((mergeLogs logsOf r).1).filter isPollFetch = [] := by
  rcases hfid : r.logsFileId with _ | fid <;>
    by_cases hrs : r.status == .RUNNING <;>
      simp [mergeLogs, hfid, hrs, isPollFetch]

/-- The log-fetch effects of the merge step contain no dispatch. -/
lemma mergeLogs_filter_isSetRunDispatch (logsOf : String → String) (r : FlowRun) :
    ((mergeLogs logsOf r).1).filter isSetRunDispatch = [] := by
  rcases hfid : r.logsFileId with _ | fid <;>
    by_cases hrs : r.status == .RUNNING <;>
      simp [mergeLogs, hfid, hrs, isSetRunDispatch]

/-- A live tick issues exactly one run fetch. -/
lemma pollerTick_poll_count (logsOf : String → String) (r : FlowRun) (s : PollerState)
    (h : s.stopped = false) :
    ((pollerTick logsOf r s).events.filter isPollFetch).length
      = (s.events.filter isPollFetch).length + 1 := by
  rw [pollerTick_events logsOf r s h]
  by_cases hrun : r.status == .RUNNING <;>
    simp [List.filter_append, isPollFetch, mergeLogs_filter_isPollFetch, hrun]

/-- Once the subscription has completed, later ticks change nothing:
no further fetch, emission or dispatch ever occurs. -/
lemma runPoller_frozen (logsOf : String → String) (fetch : Nat → FlowRun)
    (cancelAt : Option Nat) {n m : Nat}
    (h : (runPoller logsOf fetch cancelAt n).stopped = true) (hnm : n ≤ m) :
    runPoller logsOf fetch cancelAt m = runPoller logsOf fetch cancelAt n := by
  induction m with
  | zero =>
    cases Nat.le_zero.mp hnm
    rfl
  | succ m ih =>
    rcases Nat.lt_or_ge n (m + 1) with hlt | hge
    · have hnm' : n ≤ m := Nat.lt_succ_iff.mp hlt
      have heq := ih hnm'
      rw [runPoller_succ, heq]
      by_cases hc : cancelled cancelAt m
      · rw [if_pos hc, setStopped_self _ h]
      · rw [if_neg hc, pollerTick_stopped _ _ _ h]
    · have : n = m + 1 := le_antisymm hnm hge
      subst this
      rfl

/-- A tick that processes a fetch whose status fails the `takeWhile`
predicate leaves the subscription completed. -/
lemma runPoller_stopped_of_not_keep (logsOf : String → String) (fetch : Nat → FlowRun)
    (cancelAt : Option Nat) (j : Nat) (h : keepPolling (fetch j) = false) :
    (runPoller logsOf fetch cancelAt (j + 1)).stopped = true := by
  rw [runPoller_succ]
  by_cases hc : cancelled cancelAt j
  · rw [if_pos hc]
  · rw [if_neg hc]
    by_cases hs : (runPoller logsOf fetch cancelAt j).stopped = true
    · rw [pollerTick_stopped _ _ _ hs]
      exact hs
    · rw [pollerTick_stopped_eq _ _ _ (Bool.not_eq_true _ ▸ hs), h]
      rfl

/-- After the cancellation signal has fired, the effect trace never grows. -/
lemma runPoller_events_after_cancel (logsOf : String → String) (fetch : Nat → FlowRun)
    (c m : Nat) (h : c ≤ m) :
    (runPoller logsOf fetch (some c) m).events
      = (runPoller logsOf fetch (some c) c).events := by
  induction m with
  | zero =>
    cases Nat.le_zero.mp h
    rfl
  | succ m ih =>
    rcases Nat.lt_or_ge c (m + 1) with hlt | hge
    · have hcm : c ≤ m := Nat.lt_succ_iff.mp hlt
      rw [runPoller_succ, if_pos (by simp [cancelled, hcm])]
      exact ih hcm
    · have : c = m + 1 := le_antisymm h hge
      subst this
      rfl

/-- While every fetched status keeps the `takeWhile` predicate true and no
cancellation has fired, the subscription stays live and issues one poll per
tick. -/
lemma runPoller_active (logsOf : String → String) (fetch : Nat → FlowRun)
    (cancelAt : Option Nat) (n : Nat)
    (hkeep : ∀ j, j < n → keepPolling (fetch j) = true)
    (hcancel : ∀ j, j < n → cancelled cancelAt j = false) :
    (runPoller logsOf fetch cancelAt n).stopped = false
      ∧ (pollsIssued logsOf fetch cancelAt n).length = n := by
  induction n with
  | zero => exact ⟨rfl, rfl⟩
  | succ n ih =>
    obtain ⟨hstop, hcount⟩ := ih (fun j hj => hkeep j (Nat.lt_succ_of_lt hj))
      (fun j hj => hcancel j (Nat.lt_succ_of_lt hj))
    have hstep : runPoller logsOf fetch cancelAt (n + 1)
        = pollerTick logsOf (fetch n) (runPoller logsOf fetch cancelAt n) := by
      rw [runPoller_succ, if_neg (by simp [hcancel n (Nat.lt_succ_self n)])]
    have hkn := hkeep n (Nat.lt_succ_self n)
    constructor
    · rw [hstep, pollerTick_stopped_eq _ _ _ hstop, hkn]
      rfl
    · show ((runPoller logsOf fetch cancelAt (n + 1)).events.filter isPollFetch).length
        = n + 1
      rw [hstep, pollerTick_poll_count _ _ _ hstop]
      have hc : ((runPoller logsOf fetch cancelAt n).events.filter isPollFetch).length
          = n := hcount
      rw [hc]

/-- Claim C4: the poller keeps issuing polls only while every fetched
status is RUNNING or PAUSED — it issues no poll after the tick that
observes a status outside that set, it issues no poll from the moment the
external cancellation signal fires regardless of run status, and while all
fetched statuses are in the set and no cancellation fires it issues exactly
one poll per tick. -/
theorem poller_stops_on_terminal_or_cancel (logsOf : String → String)
    (fetch : Nat → FlowRun) (cancelAt : Option Nat) :
    (∀ j m, (fetch j).status ≠ .RUNNING → (fetch j).status ≠ .PAUSED → j + 1 ≤ m →
        pollsIssued logsOf fetch cancelAt m = pollsIssued logsOf fetch cancelAt (j + 1))
    ∧ (∀ c m, cancelAt = some c → c ≤ m →
        pollsIssued logsOf fetch cancelAt m = pollsIssued logsOf fetch cancelAt c)
    ∧ (∀ n, (∀ j, j < n → ((fetch j).status = .RUNNING ∨ (fetch j).status = .PAUSED)) →
        (∀ j, j < n → cancelled cancelAt j = false) →
        (pollsIssued logsOf fetch cancelAt n).length = n) := by
  refine ⟨?_, ?_, ?_⟩
  · intro j m h1 h2 hjm
    have hkp : keepPolling (fetch j) = false := by
      simp only [keepPolling, Bool.or_eq_false_iff, beq_eq_false_iff_ne, ne_eq]
      exact ⟨h1, h2⟩
    show (runPoller logsOf fetch cancelAt m).events.filter isPollFetch = _
    rw [runPoller_frozen logsOf fetch cancelAt
      (runPoller_stopped_of_not_keep logsOf fetch cancelAt j hkp) hjm]
    rfl
  · intro c m hc hcm
    subst hc
    show (runPoller logsOf fetch (some c) m).events.filter isPollFetch = _
    rw [runPoller_events_after_cancel logsOf fetch c m hcm]
    rfl
  · intro n hkeep hcancel
    refine (runPoller_active logsOf fetch cancelAt n (fun j hj => ?_) hcancel).2
    rcases hkeep j hj with h | h <;> simp [keepPolling, h]

/-- Witness for C4: the scenario trace stops after the third poll; a
cancellation before tick 2 freezes the polls; an all-RUNNING trace without
cancellation polls once per tick. -/
theorem poller_stops_on_terminal_or_cancel_witness :
    pollsIssued scenarioLogsOf scenarioFetch none 5
        = pollsIssued scenarioLogsOf scenarioFetch none 3
      ∧ pollsIssued scenarioLogsOf (fun _ => pollRunning) (some 2) 7
          = pollsIssued scenarioLogsOf (fun _ => pollRunning) (some 2) 2
      ∧ (pollsIssued scenarioLogsOf (fun _ => pollRunning) none 4).length = 4 := by
  obtain ⟨h1, _, _⟩ :=
    poller_stops_on_terminal_or_cancel scenarioLogsOf scenarioFetch none
  obtain ⟨_, h2, _⟩ :=
    poller_stops_on_terminal_or_cancel scenarioLogsOf (fun _ => pollRunning) (some 2)
  obtain ⟨_, _, h3⟩ :=
    poller_stops_on_terminal_or_cancel scenarioLogsOf (fun _ => pollRunning) none
  exact ⟨h1 2 5 (by decide) (by decide) (by decide),
    h2 2 7 rfl (by decide),
    h3 4 (fun j hj => Or.inl rfl) (fun j hj => rfl)⟩

/-- Counterexample to C5 as stated: a fetch with the non-terminal status
PAUSED does trigger the `setRun` dispatch (the `tap` only checks
`status !== RUNNING`), so a downstream state update is not restricted to
terminal statuses. -/
theorem poller_paused_dispatch_cex :
    pollPaused.status = .PAUSED
      ∧ (runPoller scenarioLogsOf (fun _ => pollPaused) none 1).events
          = [.pollFetch pollPaused, .setRunDispatch pollPaused none] :=
  ⟨rfl, rfl⟩

/-- Claim C5 (amended): a processed fetch triggers the `setRun` dispatch
exactly when its status is not RUNNING — so a RUNNING fetch never triggers
a downstream state update, while a PAUSED (non-terminal) fetch, like every
terminal one, does. -/
theorem poller_dispatch_iff_not_running (logsOf : String → String) (r : FlowRun)
    (s : PollerState) (h : s.stopped = false) :
    ((pollerTick logsOf r s).events.filter isSetRunDispatch).length
      = (s.events.filter isSetRunDispatch).length
        + (if r.status = .RUNNING then 0 else 1) := by
  rw [pollerTick_events logsOf r s h]
  by_cases hrun : r.status = .RUNNING
  · simp [List.filter_append, isSetRunDispatch, mergeLogs_filter_isSetRunDispatch, hrun]
  · have hb : (r.status == .RUNNING) = false := by
      simp [hrun]
    simp [List.filter_append, isSetRunDispatch, mergeLogs_filter_isSetRunDispatch,
      hrun, hb]

/-- Witness for C5 (amended): a PAUSED fetch yields one dispatch, a
RUNNING fetch yields none. -/
theorem poller_dispatch_iff_not_running_witness :
    ((pollerTick scenarioLogsOf pollPaused ⟨[], false⟩).events.filter
        isSetRunDispatch).length = 1
      ∧ ((pollerTick scenarioLogsOf pollRunning ⟨[], false⟩).events.filter
        isSetRunDispatch).length = 0 := by
  constructor
  · simpa using poller_dispatch_iff_not_running scenarioLogsOf pollPaused ⟨[], false⟩ rfl
  · have h := poller_dispatch_iff_not_running scenarioLogsOf pollRunning ⟨[], false⟩ rfl
    rw [h]
    rfl

/-- Log fetches of the merge step: exactly one when the fetched status is
not RUNNING and the logs reference is non-null, none otherwise. -/
lemma mergeLogs_fst_length (logsOf : String → String) (r : FlowRun) :
    ((mergeLogs logsOf r).1.filter isLogsFetch).length
      = if r.status ≠ .RUNNING ∧ r.logsFileId ≠ none then 1 else 0 := by
  rcases hfid : r.logsFileId with _ | fid
  · simp [mergeLogs, hfid]
  · by_cases hrs : r.status = .RUNNING
    · simp [mergeLogs, hfid, hrs]
    · have hb : (r.status == .RUNNING) = false := by
        simp [hrs]
      simp [mergeLogs, hfid, hb, isLogsFetch, hrs]

/-- Claim C6: a processed fetch triggers a log fetch if and only if its
status is not RUNNING and its logs reference is non-null, in which case the
log contents are merged into the emitted value; and in the scenario
RUNNING → RUNNING → SUCCEEDED with `logsFileId = "L1"`, the poller fetches
logs exactly once, merges them, and stops polling thereafter. -/
theorem poller_logs_fetch_iff (logsOf : String → String) (r : FlowRun)
    (s : PollerState) :
    (s.stopped = false →
      ((pollerTick logsOf r s).events.filter isLogsFetch).length
        = (s.events.filter isLogsFetch).length
          + (if r.status ≠ .RUNNING ∧ r.logsFileId ≠ none then 1 else 0))
    ∧ (∀ fid, s.stopped = false → r.logsFileId = some fid → r.status ≠ .RUNNING →
      (pollerTick logsOf r s).events
        = s.events ++ [.pollFetch r, .logsFetch fid,
            .setRunDispatch r (some (logsOf fid))])
    ∧ (∀ n, 3 ≤ n →
      logsFetchesIssued scenarioLogsOf scenarioFetch none n = [.logsFetch "L1"]
        ∧ (pollsIssued scenarioLogsOf scenarioFetch none n).length = 3) := by
  refine ⟨?_, ?_, ?_⟩
  · intro h
    rw [pollerTick_events logsOf r s h]
    by_cases hrun : r.status == .RUNNING <;>
      simp [List.filter_append, isLogsFetch, mergeLogs_fst_length, hrun]
  · intro fid h hfid hrs
    have hb : (r.status == .RUNNING) = false := by
      simp [hrs]
    rw [pollerTick_events logsOf r s h]
    simp [mergeLogs, hfid, hb]
  · intro n hn
    have hstop : (runPoller scenarioLogsOf scenarioFetch none 3).stopped = true := by
      decide
    have hfrozen := runPoller_frozen scenarioLogsOf scenarioFetch none hstop hn
    constructor
    · show (runPoller scenarioLogsOf scenarioFetch none n).events.filter isLogsFetch = _
      rw [hfrozen]
      decide
    · show ((runPoller scenarioLogsOf scenarioFetch none n).events.filter
        isPollFetch).length = 3
      rw [hfrozen]
      decide

/-- Witness for C6: a SUCCEEDED fetch carrying `logsFileId = "L1"` fetches
and merges logs; the concrete scenario at five ticks shows one log fetch
and three polls. -/
theorem poller_logs_fetch_iff_witness :
    ((pollerTick scenarioLogsOf pollSucceeded ⟨[], false⟩).events.filter
        isLogsFetch).length = 1
      ∧ (pollerTick scenarioLogsOf pollSucceeded ⟨[], false⟩).events
          = [.pollFetch pollSucceeded, .logsFetch "L1",
             .setRunDispatch pollSucceeded (some (scenarioLogsOf "L1"))]
      ∧ logsFetchesIssued scenarioLogsOf scenarioFetch none 5 = [.logsFetch "L1"]
      ∧ (pollsIssued scenarioLogsOf scenarioFetch none 5).length = 3 := by
  obtain ⟨h1, h2, h3⟩ := poller_logs_fetch_iff scenarioLogsOf pollSucceeded ⟨[], false⟩
  obtain ⟨ha, hb⟩ := h3 5 (by decide)
  refine ⟨by simpa using h1 rfl, ?_, ha, hb⟩
  simpa using h2 "L1" rfl rfl (by decide)

end Activepieces
